import Mathlib

/-!
Verification of the kanjialive-mcp-server hosted TypeScript server.

This file gives a shallow embedding of the core modules described by the
specification and settles the frozen claims against it:

* the retry/backoff policy of the outbound API client
  (source: src/unnamed/part_010, functions calculateBackoffDelay,
  shouldRetry, getRetryDelay, and the constants module src/unnamed/part_009);
* the session registry and the three /mcp HTTP handlers
  (source: src/unnamed/part_011: isValidSessionId, app.post, app.get,
  app.delete, the periodic cleanup sweep, and handleShutdown);
* the mock ServerResponse shim (source: src/unnamed/part_011,
  createMockResponse).

Modelling conventions:

* JavaScript `Map<string, V>` objects are embedded as association lists
  `List (String × V)` with unique keys; `mapGet`, `mapSet`, `mapDelete`
  and `mapHas` mirror Map.get / Map.set / Map.delete / Map.has.
* JavaScript numbers are embedded as exact rationals (ℚ); timestamps as ℤ.
* `string | undefined` values are embedded as `Option String`; JavaScript
  truthiness of such a value (`if (sessionId)`) is `truthy`, which is false
  for `undefined` and for the empty string.
* External collaborators (the MCP SDK transport, the HTTP framework, the
  random source) enter as explicit parameters: the jitter sample, whether a
  transport close operation resolves, the fresh transport identity.
-/

/-- JavaScript Map.get on an association list: value of the first entry with
the given key. -/
def mapGet {α : Type} (m : List (String × α)) (k : String) : Option α :=
  match m with
  | [] => none
  | p :: rest => if p.1 = k then some p.2 else mapGet rest k

/-- JavaScript Map.has. -/
def mapHas {α : Type} (m : List (String × α)) (k : String) : Bool :=
  (mapGet m k).isSome

/-- JavaScript Map.set: replace the value in place if the key exists
(keeping its position), otherwise append the new entry. -/
def mapSet {α : Type} (m : List (String × α)) (k : String) (v : α) :
    List (String × α) :=
  match m with
  | [] => [(k, v)]
  | p :: rest => if p.1 = k then (k, v) :: rest else p :: mapSet rest k v

/-- JavaScript Map.delete: remove the entry with the given key. -/
def mapDelete {α : Type} (m : List (String × α)) (k : String) :
    List (String × α) :=
  m.filter (fun p => p.1 ≠ k)

theorem mapGet_mapDelete_self {α : Type} (m : List (String × α)) (k : String) :
    mapGet (mapDelete m k) k = none := by
  induction m with
  | nil => rfl
  | cons p rest ih =>
    by_cases h : p.1 = k
    · simpa [mapDelete, List.filter, h] using ih
    · simpa [mapDelete, List.filter, h, mapGet] using ih

theorem mapGet_mapDelete_ne {α : Type} (m : List (String × α)) {k k' : String}
    (h : k' ≠ k) : mapGet (mapDelete m k') k = mapGet m k := by
  induction m with
  | nil => rfl
  | cons p rest ih =>
    by_cases hp : p.1 = k'
    · have hpk : p.1 ≠ k := by rw [hp]; exact h
      have h1 : mapDelete (p :: rest) k' = mapDelete rest k' := by
        simp [mapDelete, List.filter_cons, hp]
      rw [h1, ih]
      simp [mapGet, hpk]
    · have h1 : mapDelete (p :: rest) k' = p :: mapDelete rest k' := by
        simp [mapDelete, List.filter_cons, hp]
      rw [h1]
      by_cases hk : p.1 = k
      · simp [mapGet, hk]
      · simp [mapGet, hk, ih]

theorem mapGet_none_mapDelete {α : Type} (m : List (String × α))
    {k : String} (k' : String) (h : mapGet m k = none) :
    mapGet (mapDelete m k') k = none := by
  by_cases hk : k' = k
  · subst hk; exact mapGet_mapDelete_self m k'
  · rw [mapGet_mapDelete_ne m hk]; exact h

theorem mapGet_eq_some_mem {α : Type} {m : List (String × α)} {k : String}
    {v : α} (h : mapGet m k = some v) : (k, v) ∈ m := by
  induction m with
  | nil => simp [mapGet] at h
  | cons p rest ih =>
    by_cases hp : p.1 = k
    · simp only [mapGet, hp, if_pos] at h
      obtain ⟨a, b⟩ := p
      simp only [Option.some_inj] at h
      simp only at hp
      subst hp
      subst h
      exact List.mem_cons_self _ _
    · simp only [mapGet, hp, if_neg, not_false_iff] at h
      exact List.mem_cons_of_mem _ (ih h)

theorem mapGet_mem_unique {α : Type} {m : List (String × α)} {k : String}
    {v : α} (hnd : (m.map Prod.fst).Nodup) (h : mapGet m k = some v) :
    ∀ v', (k, v') ∈ m → v' = v := by
  induction m with
  | nil => intro v' hv'; simp at hv'
  | cons p rest ih =>
    intro v' hv'
    simp only [List.map_cons, List.nodup_cons] at hnd
    by_cases hp : p.1 = k
    · simp only [mapGet, hp, if_pos] at h
      rcases List.mem_cons.mp hv' with heq | hmem
      · obtain ⟨a, b⟩ := p
        simp only [Option.some_inj] at h
        cases heq
        exact h
      · exfalso
        apply hnd.1
        rw [hp]
        exact List.mem_map.mpr ⟨(k, v'), hmem, rfl⟩
    · simp only [mapGet, hp, if_neg, not_false_iff] at h
      rcases List.mem_cons.mp hv' with heq | hmem
      · exfalso
        obtain ⟨a, b⟩ := p
        cases heq
        exact hp rfl
      · exact ih hnd.2 h v' hmem

/-! ## Backoff policy and retryability classifier

Embedding of src/unnamed/part_010 (the Axios client with retry logic) and
the constants of src/unnamed/part_009. JavaScript numbers are embedded as
exact rationals; the Math.random sample is an explicit parameter `rand`.
-/

/-- Maximum number of retry attempts (src/unnamed/part_009). -/
def MAX_RETRIES : ℕ := 3

/-- Initial delay for exponential backoff in seconds, 0.5
(src/unnamed/part_009). -/
def INITIAL_BACKOFF : ℚ := 1 / 2

/-- Maximum delay for exponential backoff in seconds
(src/unnamed/part_009). -/
def MAX_BACKOFF : ℚ := 30

/-- calculateBackoffDelay from src/unnamed/part_010:
base is min(INITIAL_BACKOFF * 2^(retryCount - 1), MAX_BACKOFF), jitter is
Math.random() * base * 0.1, result is (base + jitter) * 1000 milliseconds.
The Math.random() sample is the parameter `rand`, a value in [0, 1). -/
def calculateBackoffDelay (retryCount : ℕ) (rand : ℚ) : ℚ :=
  ((min (INITIAL_BACKOFF * 2 ^ (retryCount - 1)) MAX_BACKOFF)
    + rand * (min (INITIAL_BACKOFF * 2 ^ (retryCount - 1)) MAX_BACKOFF) * (1 / 10))
    * 1000

/-- Test of the regular expression of one or more decimal digits anchored at
both ends, used by getRetryDelay on the retry-after header value; the
JavaScript guard also requires the header string to be truthy (non-empty),
which the regular expression subsumes. -/
def isDigitString (s : String) : Bool :=
  s ≠ "" && s.data.all (fun c => ('0' ≤ c) && (c ≤ '9'))

/-- parseInt(s, 10) on a string of decimal digits. -/
def parseDecimal (s : String) : ℕ :=
  s.data.foldl (fun a c => a * 10 + (c.toNat - 48)) 0

/-- Model of an AxiosError as far as the retry logic inspects it:
the HTTP status of the response when one was received (none models a
network-level failure with no response), whether the request method is
idempotent, whether the error code is a truthy network error code for which
retrying is allowed, and whether the code differs from ECONNABORTED. -/
structure AxiosErrorModel where
  status : Option ℕ
  idempotentMethod : Bool
  networkCode : Bool
  notAborted : Bool
deriving DecidableEq

/-- Modelled from the axios-retry dependency (not part of this repository):
isNetworkOrIdempotentRequestError is isNetworkError or
isIdempotentRequestError, where isNetworkError requires no response and a
truthy retry-allowed error code other than ECONNABORTED, and
isIdempotentRequestError requires an idempotent method and a retryable
error (code other than ECONNABORTED, and either no response or a 5xx
status). -/
def isNetworkOrIdempotentRequestError (e : AxiosErrorModel) : Bool :=
  (e.status.isNone && e.networkCode && e.notAborted) ||
  (e.idempotentMethod && e.notAborted &&
    (e.status.isNone || (decide (500 ≤ e.status.getD 0) && decide (e.status.getD 0 ≤ 599))))

/-- shouldRetry from src/unnamed/part_010: retry when
isNetworkOrIdempotentRequestError holds; otherwise read the response
status (a falsy status, absent or zero, means no retry) and retry exactly
on 429 or a status in [500, 600). -/
def shouldRetry (e : AxiosErrorModel) : Bool :=
  if isNetworkOrIdempotentRequestError e then true
  else
    match e.status with
    | none => false
    | some s =>
      if s = 0 then false
      else s == 429 || (decide (500 ≤ s) && decide (s < 600))

/-- Result of getRetryDelay: the computed delay in milliseconds and whether
a warning log entry was emitted. -/
structure RetryDelayOut where
  delay : ℚ
  warned : Bool
deriving DecidableEq

/-- getRetryDelay from src/unnamed/part_010: when the retry-after header is
present and is a non-empty all-digit string, the delay is
min(parsed seconds, MAX_BACKOFF) * 1000 and a warning is logged (the log
line notes the capping when the request exceeded MAX_BACKOFF); otherwise
the delay falls back to calculateBackoffDelay. -/
def getRetryDelay (retryAfter : Option String) (retryCount : ℕ) (rand : ℚ) :
    RetryDelayOut :=
  match retryAfter with
  | some s =>
    if isDigitString s then
      { delay := (min ((parseDecimal s : ℚ)) MAX_BACKOFF) * 1000, warned := true }
    else
      { delay := calculateBackoffDelay retryCount rand, warned := false }
  | none => { delay := calculateBackoffDelay retryCount rand, warned := false }

/-! ## Claims about the retry policy -/

/-- C3: for every retry attempt whose triggering error carries a retry-after
header that is a non-negative integer h in seconds, if h is at most the
MAX_BACKOFF ceiling the computed delay is exactly h * 1000 milliseconds,
and if h exceeds the ceiling the computed delay is exactly
MAX_BACKOFF * 1000 milliseconds and a warning log entry is recorded. -/
theorem retryAfter_hint_respected (s : String) (n : ℕ) (rand : ℚ) (h : ℕ)
    (hdig : isDigitString s = true) (hparse : parseDecimal s = h) :
    ((h : ℚ) ≤ MAX_BACKOFF →
      getRetryDelay (some s) n rand = ⟨(h : ℚ) * 1000, true⟩) ∧
    (MAX_BACKOFF < (h : ℚ) →
      getRetryDelay (some s) n rand = ⟨MAX_BACKOFF * 1000, true⟩) := by
  subst hparse
  constructor
  · intro hle
    simp [getRetryDelay, hdig, min_eq_left hle]
  · intro hlt
    simp [getRetryDelay, hdig, min_eq_right (le_of_lt hlt)]

theorem retryAfter_hint_respected_witness :
    getRetryDelay (some "45") 1 0 = ⟨MAX_BACKOFF * 1000, true⟩ :=
  (retryAfter_hint_respected "45" 1 0 45 (by decide) (by decide)).2
    (by norm_num [MAX_BACKOFF])

/-- C4: for every attempt number n at least 1, every jitter sample in
[0, 1) and every possible retry-after header value, the computed retry
delay is a non-negative rational number of milliseconds (the exact model
of the finite JavaScript number arithmetic here, in which no NaN arises)
and never exceeds MAX_BACKOFF * 1000 * 1.1 milliseconds. -/
theorem retryDelay_bounded (retryAfter : Option String) (n : ℕ) (rand : ℚ)
    (_hn : 1 ≤ n) (h0 : 0 ≤ rand) (h1 : rand < 1) :
    0 ≤ (getRetryDelay retryAfter n rand).delay ∧
    (getRetryDelay retryAfter n rand).delay ≤ MAX_BACKOFF * 1000 * (11 / 10) := by
  have hbound : MAX_BACKOFF * 1000 * (11 / 10) = 33000 := by
    norm_num [MAX_BACKOFF]
  have hbpos : (0 : ℚ) < min (INITIAL_BACKOFF * 2 ^ (n - 1)) MAX_BACKOFF := by
    have hpow : (0 : ℚ) < 2 ^ (n - 1) := by positivity
    have hib : (0 : ℚ) < INITIAL_BACKOFF := by norm_num [INITIAL_BACKOFF]
    exact lt_min (mul_pos hib hpow) (by norm_num [MAX_BACKOFF])
  have hble : min (INITIAL_BACKOFF * 2 ^ (n - 1)) MAX_BACKOFF ≤ 30 :=
    min_le_right _ _
  have hback0 : 0 ≤ calculateBackoffDelay n rand := by
    unfold calculateBackoffDelay
    nlinarith [hbpos, h0]
  have hbackle : calculateBackoffDelay n rand ≤ 33000 := by
    unfold calculateBackoffDelay
    nlinarith [hbpos, hble, h0, h1]
  rcases retryAfter with _ | s
  · rw [hbound]
    exact ⟨hback0, hbackle⟩
  · by_cases hd : isDigitString s
    · have hmin0 : (0 : ℚ) ≤ min ((parseDecimal s : ℚ)) MAX_BACKOFF :=
        le_min (by positivity) (by norm_num [MAX_BACKOFF])
      have hminle : min ((parseDecimal s : ℚ)) MAX_BACKOFF ≤ 30 :=
        min_le_right _ _
      rw [hbound]
      constructor
      · simp only [getRetryDelay, hd, if_pos]
        nlinarith [hmin0]
      · simp only [getRetryDelay, hd, if_pos]
        nlinarith [hminle]
    · simp only [getRetryDelay, hd, Bool.false_eq_true, if_neg, not_false_iff]
      rw [hbound]
      exact ⟨hback0, hbackle⟩

theorem retryDelay_bounded_witness :
    0 ≤ (getRetryDelay (some "100") 1 0).delay ∧
    (getRetryDelay (some "100") 1 0).delay ≤ MAX_BACKOFF * 1000 * (11 / 10) :=
  retryDelay_bounded (some "100") 1 0 (by norm_num) (by norm_num) (by norm_num)

/-- C5: the retryability classifier returns true for network-level failures
(no response received, truthy retry-allowed error code), for HTTP 429, and
for every HTTP status in [500, 600); it returns false for every other 4xx
status, so in particular an HTTP 404 is never retried. -/
theorem shouldRetry_classification (e : AxiosErrorModel) :
    (e.status = none → e.networkCode = true → e.notAborted = true →
      shouldRetry e = true) ∧
    (e.status = some 429 → shouldRetry e = true) ∧
    (∀ s, e.status = some s → 500 ≤ s → s < 600 → shouldRetry e = true) ∧
    (∀ s, e.status = some s → 400 ≤ s → s < 500 → s ≠ 429 →
      shouldRetry e = false) := by
  refine ⟨?_, ?_, ?_, ?_⟩
  · intro hs hnc hna
    simp [shouldRetry, isNetworkOrIdempotentRequestError, hs, hnc, hna]
  · intro hs
    by_cases hnet : isNetworkOrIdempotentRequestError e
    · simp [shouldRetry, hnet]
    · simp [shouldRetry, hnet, hs]
  · intro s hs h5 h6
    by_cases hnet : isNetworkOrIdempotentRequestError e
    · simp [shouldRetry, hnet]
    · have hs0 : s ≠ 0 := by omega
      simp only [shouldRetry, hnet, Bool.false_eq_true, if_neg, not_false_iff, hs,
        hs0, Bool.or_eq_true, Bool.and_eq_true, decide_eq_true_eq, beq_iff_eq]
      right
      exact ⟨h5, h6⟩
  · intro s hs h4 h5 hne
    have hnet : isNetworkOrIdempotentRequestError e = false := by
      have h5' : ¬ (500 ≤ s) := by omega
      simp [isNetworkOrIdempotentRequestError, hs, h5']
    have hs0 : s ≠ 0 := by omega
    have h5' : ¬ (500 ≤ s) := by omega
    simp [shouldRetry, hnet, hs, hs0, hne, h5']

theorem shouldRetry_classification_witness :
    shouldRetry ⟨some 404, true, true, true⟩ = false :=
  (shouldRetry_classification ⟨some 404, true, true, true⟩).2.2.2 404 rfl
    (by norm_num) (by norm_num) (by norm_num)

/-- C10: when the error carries no retry-after header, or its value is not
a string of decimal digits, the delay falls back to the exponential-backoff
computation min(INITIAL_BACKOFF * 2^(attempt-1), MAX_BACKOFF) seconds plus
a jitter in [0, 0.1 * base), converted to milliseconds. -/
theorem retryDelay_fallback_backoff (s : String) (n : ℕ) (rand : ℚ)
    (hnot : isDigitString s = false) (h0 : 0 ≤ rand) (h1 : rand < 1) :
    getRetryDelay none n rand = ⟨calculateBackoffDelay n rand, false⟩ ∧
    getRetryDelay (some s) n rand = ⟨calculateBackoffDelay n rand, false⟩ ∧
    calculateBackoffDelay n rand =
      ((min (INITIAL_BACKOFF * 2 ^ (n - 1)) MAX_BACKOFF)
        + rand * (min (INITIAL_BACKOFF * 2 ^ (n - 1)) MAX_BACKOFF) * (1 / 10))
        * 1000 ∧
    0 ≤ rand * (min (INITIAL_BACKOFF * 2 ^ (n - 1)) MAX_BACKOFF) * (1 / 10) ∧
    rand * (min (INITIAL_BACKOFF * 2 ^ (n - 1)) MAX_BACKOFF) * (1 / 10)
      < (1 / 10) * (min (INITIAL_BACKOFF * 2 ^ (n - 1)) MAX_BACKOFF) := by
  have hbpos : (0 : ℚ) < min (INITIAL_BACKOFF * 2 ^ (n - 1)) MAX_BACKOFF := by
    have hpow : (0 : ℚ) < 2 ^ (n - 1) := by positivity
    have hib : (0 : ℚ) < INITIAL_BACKOFF := by norm_num [INITIAL_BACKOFF]
    exact lt_min (mul_pos hib hpow) (by norm_num [MAX_BACKOFF])
  refine ⟨rfl, by simp [getRetryDelay, hnot], rfl, ?_, ?_⟩
  · nlinarith [hbpos, h0]
  · nlinarith [hbpos, h0, h1]

theorem retryDelay_fallback_backoff_witness :
    getRetryDelay (some "2.5") 2 (1 / 2) = ⟨calculateBackoffDelay 2 (1 / 2), false⟩ :=
  (retryDelay_fallback_backoff "2.5" 2 (1 / 2) (by decide) (by norm_num)
    (by norm_num)).2.1

/-! ## Session identifiers and the session registry

Embedding of the session layer of src/unnamed/part_011: the session id
format validator, the session and last-access maps, the three /mcp
handlers, the periodic inactivity sweep and the shutdown handler.
-/

/-- JavaScript truthiness of a `string | undefined` value: false for
undefined and for the empty string. -/
def truthy : Option String → Bool
  | none => false
  | some s => s ≠ ""

/-- Character class [0-9a-f] with the ignore-case flag. -/
def isHexDigitChar (c : Char) : Bool :=
  (('0' ≤ c) && (c ≤ '9')) || (('a' ≤ c) && (c ≤ 'f')) || (('A' ≤ c) && (c ≤ 'F'))

/-- Positions of the four dashes inside a canonical 36-character UUID. -/
def isUuidDashPos (i : ℕ) : Bool :=
  i == 8 || i == 13 || i == 18 || i == 23

/-- Admissible character at position i of the UUID v4 pattern
[0-9a-f]{8}-[0-9a-f]{4}-4[0-9a-f]{3}-[89ab][0-9a-f]{3}-[0-9a-f]{12}
with the ignore-case flag. -/
def uuidV4CharOk (i : ℕ) (c : Char) : Bool :=
  if isUuidDashPos i then c == '-'
  else if i == 14 then c == '4'
  else if i == 19 then
    c == '8' || c == '9' || c == 'a' || c == 'b' || c == 'A' || c == 'B'
  else isHexDigitChar c

/-- isValidSessionId from src/unnamed/part_011 lines 36-40: a falsy id
(undefined or empty) or one whose length differs from 36 is invalid;
otherwise the anchored UUID v4 regular expression must match, which for a
36-character string is the positional character check. -/
def isValidSessionId : Option String → Bool
  | none => false
  | some id =>
    if id = "" || id.length ≠ 36 then false
    else (List.range 36).all (fun i => uuidV4CharOk i (id.data.getD i ' '))

/-- The shared mutable session state of the gateway: the id-to-transport
map (`sessions`) and the id-to-last-access-time map (`sessionLastAccess`).
Transport instances are identified by a numeric tag; timestamps are
integers (Date.now() values in milliseconds). -/
structure ServerState where
  sessions : List (String × ℕ)
  sessionLastAccess : List (String × ℤ)
deriving DecidableEq

/-- Session inactivity timeout in milliseconds (30 minutes). -/
def SESSION_TIMEOUT_MS : ℤ := 30 * 60 * 1000

/-- Period of the cleanup sweep in milliseconds (5 minutes). -/
def SESSION_CLEANUP_INTERVAL_MS : ℤ := 5 * 60 * 1000

/-- Outcome of the POST /mcp handler, as far as it is decided by the
gateway itself (everything after a successful routing is performed by the
external transport object). -/
inductive PostOutcome where
  /-- Early rejection of a malformed session id: code -32600, HTTP 400. -/
  | invalidFormat
  /-- The request body failed to parse (or the transport handling threw):
  code -32603, HTTP 500. -/
  | internalError
  /-- No usable session: code -32000, HTTP 400. -/
  | invalidSession
  /-- Routed to the existing transport registered under the id. -/
  | reused (tid : ℕ)
  /-- A fresh transport was constructed for an initialize request and
  handed to the MCP server; the session maps are populated later by the
  onsessioninitialized callback. -/
  | initialized
deriving DecidableEq

/-- JSON-RPC error code carried by the structured error responses of the
POST handler. -/
def PostOutcome.jsonRpcCode : PostOutcome → Option ℤ
  | .invalidFormat => some (-32600)
  | .internalError => some (-32603)
  | .invalidSession => some (-32000)
  | .reused _ => none
  | .initialized => none

/-- HTTP status of the structured error responses of the POST handler. -/
def PostOutcome.httpStatus : PostOutcome → Option ℕ
  | .invalidFormat => some 400
  | .internalError => some 500
  | .invalidSession => some 400
  | .reused _ => none
  | .initialized => none

/-- The POST /mcp handler (src/unnamed/part_011 lines 350-451), up to the
handoff to the transport. Branch structure of the source: first, if a
truthy session id fails format validation, reply -32600 without touching
any state; then parse the body (failure replies -32603); then a truthy id
present in the session map is reused and its last-access refreshed; else a
falsy id with an initialize body constructs a fresh transport; else reply
-32000. `parseOk` states that c.req.json() succeeded and `isInit` that
isInitializeRequest(body) held. -/
def handlePost (st : ServerState) (sessionId : Option String) (parseOk : Bool)
    (isInit : Bool) (now : ℤ) : PostOutcome × ServerState :=
  if truthy sessionId && !(isValidSessionId sessionId) then
    (PostOutcome.invalidFormat, st)
  else if !parseOk then (PostOutcome.internalError, st)
  else if truthy sessionId && mapHas st.sessions (sessionId.getD "") then
    (PostOutcome.reused ((mapGet st.sessions (sessionId.getD "")).getD 0),
     { st with
        sessionLastAccess := mapSet st.sessionLastAccess (sessionId.getD "") now })
  else if !(truthy sessionId) && isInit then (PostOutcome.initialized, st)
  else (PostOutcome.invalidSession, st)

/-- The onsessioninitialized callback registered on a fresh transport
(src/unnamed/part_011 lines 383-387): index the transport under the
generated id and record the current time as last access. -/
def registerSession (st : ServerState) (id : String) (tid : ℕ) (now : ℤ) :
    ServerState :=
  { sessions := mapSet st.sessions id tid,
    sessionLastAccess := mapSet st.sessionLastAccess id now }

/-- The transport onclose callback (src/unnamed/part_011 lines 392-398):
remove the session id from both maps. -/
def oncloseCleanup (st : ServerState) (id : String) : ServerState :=
  { sessions := mapDelete st.sessions id,
    sessionLastAccess := mapDelete st.sessionLastAccess id }

/-- Outcome of the GET /mcp handler. -/
inductive GetOutcome where
  /-- Invalid or missing session id: code -32600, HTTP 400. -/
  | invalidFormat
  /-- Session not found: code -32000, HTTP 400. -/
  | notFound
  /-- Routed to the registered transport. -/
  | handled (tid : ℕ)
deriving DecidableEq

/-- JSON-RPC error code of the GET handler error responses. -/
def GetOutcome.jsonRpcCode : GetOutcome → Option ℤ
  | .invalidFormat => some (-32600)
  | .notFound => some (-32000)
  | .handled _ => none

/-- The GET /mcp handler (src/unnamed/part_011 lines 456-520) up to the
handoff to the transport: a session id failing validation (including a
missing one) is rejected with -32600, an unknown one with -32000, and a
known one is routed to its transport. The source updates no session
state on this path. -/
def handleGet (st : ServerState) (sessionId : Option String) :
    GetOutcome × ServerState :=
  if !(isValidSessionId sessionId) then (GetOutcome.invalidFormat, st)
  else if !(mapHas st.sessions (sessionId.getD "")) then (GetOutcome.notFound, st)
  else (GetOutcome.handled ((mapGet st.sessions (sessionId.getD "")).getD 0), st)

/-- Outcome of the DELETE /mcp handler. -/
inductive DeleteOutcome where
  /-- Invalid or missing session id: code -32600, HTTP 400. -/
  | invalidFormat
  /-- Session not found: code -32000, HTTP 400. -/
  | notFound
  /-- transport.close() resolved; both map entries were removed and
  success was reported. -/
  | success
  /-- transport.close() rejected: HTTP 500 is reported and the catch
  branch removes nothing from the maps. -/
  | closeFailed
deriving DecidableEq

/-- JSON-RPC error code of the DELETE handler error responses. -/
def DeleteOutcome.jsonRpcCode : DeleteOutcome → Option ℤ
  | .invalidFormat => some (-32600)
  | .notFound => some (-32000)
  | .success => none
  | .closeFailed => none

/-- The DELETE /mcp handler (src/unnamed/part_011 lines 525-569): a session
id failing validation is rejected with -32600, an unknown one with -32000;
otherwise transport.close() is awaited (`closeOk` states that it resolved)
and on resolution the id is deleted from both maps and success returned;
on rejection the handler reports failure and performs no deletion. -/
def handleDelete (st : ServerState) (sessionId : Option String)
    (closeOk : Bool) : DeleteOutcome × ServerState :=
  if !(isValidSessionId sessionId) then (DeleteOutcome.invalidFormat, st)
  else if !(mapHas st.sessions (sessionId.getD "")) then (DeleteOutcome.notFound, st)
  else if closeOk then
    (DeleteOutcome.success,
     { sessions := mapDelete st.sessions (sessionId.getD ""),
       sessionLastAccess := mapDelete st.sessionLastAccess (sessionId.getD "") })
  else (DeleteOutcome.closeFailed, st)

/-- One step of the periodic cleanup sweep (src/unnamed/part_011 lines
248-261) for one entry of the last-access map, threading both the state
and the accumulated list of transport close invocations. When the entry is
stale (now minus last access strictly greater than SESSION_TIMEOUT_MS),
the source reads sessions.get(id) and, when a transport is registered
there, invokes transport.close() with the rejection swallowed by the catch
clause — recorded here by appending the (id, transport) pair to the list —
and then deletes the id from both maps unconditionally; a fresh entry
changes nothing. -/
def sweepStep (now : ℤ) (acc : ServerState × List (String × ℕ))
    (e : String × ℤ) : ServerState × List (String × ℕ) :=
  if now - e.2 > SESSION_TIMEOUT_MS then
    ({ sessions := mapDelete acc.1.sessions e.1,
       sessionLastAccess := mapDelete acc.1.sessionLastAccess e.1 },
     acc.2 ++ (match mapGet acc.1.sessions e.1 with
       | some tid => [(e.1, tid)]
       | none => []))
  else acc

/-- The periodic cleanup sweep: iterate over the entries of the
last-access map, expiring each stale session. The source iterates the
live Map while deleting only the entry under iteration, which coincides
with folding over the snapshot of the entries since keys are unique. The
result is the final state together with, in order, the transports on
which close() was invoked (each rejection swallowed). -/
def sweepSessions (st : ServerState) (now : ℤ) :
    ServerState × List (String × ℕ) :=
  st.sessionLastAccess.foldl (sweepStep now) (st, [])

/-! ## Claims about the gateway and the session registry -/

theorem isValidSessionId_ne_empty {s : String}
    (h : isValidSessionId (some s) = true) : s ≠ "" := by
  intro hs
  subst hs
  simp [isValidSessionId] at h

/-- C1 (amended): for every inbound /mcp call carrying a non-empty
mcp-session-id header whose value fails the 36-character UUIDv4 format,
each of the three handlers returns the structured JSON-RPC error -32600
(HTTP 400) before any session lookup and leaves both session maps
unchanged. The amendment excludes the empty header value, which the POST
handler treats as an absent id. -/
theorem malformed_session_id_rejected (st : ServerState) (sid : String)
    (hne : sid ≠ "") (hbad : isValidSessionId (some sid) = false) :
    (∀ parseOk isInit now,
      handlePost st (some sid) parseOk isInit now = (PostOutcome.invalidFormat, st)) ∧
    handleGet st (some sid) = (GetOutcome.invalidFormat, st) ∧
    (∀ closeOk, handleDelete st (some sid) closeOk = (DeleteOutcome.invalidFormat, st)) ∧
    PostOutcome.invalidFormat.jsonRpcCode = some (-32600) ∧
    GetOutcome.invalidFormat.jsonRpcCode = some (-32600) ∧
    DeleteOutcome.invalidFormat.jsonRpcCode = some (-32600) ∧
    PostOutcome.invalidFormat.httpStatus = some 400 := by
  refine ⟨?_, ?_, ?_, rfl, rfl, rfl, rfl⟩
  · intro parseOk isInit now
    simp [handlePost, truthy, hne, hbad]
  · simp [handleGet, hbad]
  · intro closeOk
    simp [handleDelete, hbad]

theorem malformed_session_id_rejected_witness :
    handlePost ⟨[("00000000-0000-4000-8000-000000000000", 7)],
        [("00000000-0000-4000-8000-000000000000", 5)]⟩
      (some "not-a-uuid") true true 0
    = (PostOutcome.invalidFormat,
       ⟨[("00000000-0000-4000-8000-000000000000", 7)],
        [("00000000-0000-4000-8000-000000000000", 5)]⟩) :=
  (malformed_session_id_rejected _ "not-a-uuid" (by decide) (by decide)).1 true true 0

/-- C1 counterexample: a POST /mcp call carrying an mcp-session-id header
whose value is the empty string (a value that is not 36 characters of the
UUIDv4 pattern) is not answered with -32600: with a non-initialize body it
is answered -32000, and with an initialize body it even reaches the
new-transport branch, because the truthiness guard of the POST handler
skips the format check for a falsy header value. -/
theorem post_empty_session_header_counterexample :
    isValidSessionId (some "") = false ∧
    (handlePost ⟨[], []⟩ (some "") true false 0).1 = PostOutcome.invalidSession ∧
    PostOutcome.invalidSession.jsonRpcCode = some (-32000) ∧
    (handlePost ⟨[], []⟩ (some "") true true 0).1 = PostOutcome.initialized := by
  exact ⟨by decide, by decide, rfl, by decide⟩

/-- C9 (amended): a POST with a parseable body carrying a validly-formatted
session id not present in the registry is answered -32000 with HTTP 400
without constructing a transport or touching the maps, even when the body
is an initialize request; a POST whose body fails to parse is answered
-32603 with HTTP 500, likewise without touching the maps; and the
new-transport branch is reachable only when the mcp-session-id header is
absent or carries the empty string. -/
theorem unknown_valid_session_rejected (st : ServerState) (sid : String)
    (hvalid : isValidSessionId (some sid) = true)
    (hunknown : mapHas st.sessions sid = false) :
    (∀ isInit now,
      handlePost st (some sid) true isInit now = (PostOutcome.invalidSession, st)) ∧
    (∀ isInit now,
      handlePost st (some sid) false isInit now = (PostOutcome.internalError, st)) ∧
    PostOutcome.invalidSession.jsonRpcCode = some (-32000) ∧
    PostOutcome.invalidSession.httpStatus = some 400 ∧
    (∀ st2 s2 parseOk isInit now,
      (handlePost st2 s2 parseOk isInit now).1 = PostOutcome.initialized →
        s2 = none ∨ s2 = some "") := by
  have hne := isValidSessionId_ne_empty hvalid
  refine ⟨?_, ?_, rfl, rfl, ?_⟩
  · intro isInit now
    simp [handlePost, truthy, hne, hvalid, hunknown]
  · intro isInit now
    simp [handlePost, truthy, hne, hvalid]
  · intro st2 s2 parseOk isInit now h
    match s2 with
    | none => exact Or.inl rfl
    | some s =>
      by_cases hs : s = ""
      · exact Or.inr (by rw [hs])
      · exfalso
        cases hv : isValidSessionId (some s) <;> cases parseOk <;>
          cases hh : mapHas st2.sessions s <;>
            simp [handlePost, truthy, hs, hv, hh] at h

theorem unknown_valid_session_rejected_witness :
    handlePost ⟨[], []⟩ (some "00000000-0000-4000-8000-000000000000") true true 0
      = (PostOutcome.invalidSession, ⟨[], []⟩) :=
  (unknown_valid_session_rejected ⟨[], []⟩ "00000000-0000-4000-8000-000000000000"
    (by decide) (by decide)).1 true 0

/-- C9 counterexample: first, a POST carrying an mcp-session-id header with
the empty value reaches the new-transport branch with an initialize body,
so a session can be created by a request that does carry the header;
second, a POST carrying a validly-formatted unknown session id whose body
fails to parse is answered -32603 with HTTP 500, not -32000 with 400. -/
theorem post_creation_and_parse_counterexample :
    (handlePost ⟨[], []⟩ (some "") true true 0).1 = PostOutcome.initialized ∧
    some "" ≠ (none : Option String) ∧
    (handlePost ⟨[], []⟩ (some "00000000-0000-4000-8000-000000000000") false false 0).1
      = PostOutcome.internalError ∧
    PostOutcome.internalError.jsonRpcCode = some (-32603) ∧
    PostOutcome.internalError.httpStatus = some 500 := by
  exact ⟨by decide, by decide, by decide, rfl, rfl⟩

/-- C2: for a live session id of valid format whose transport close
operation resolves, the DELETE handler reports success and removes the id
from both the session map and the last-access map, and every subsequent
call presenting that id is rejected as unrecognized (-32000) and is never
routed to a transport. -/
theorem delete_closes_and_removes (st : ServerState) (s : String) (tid : ℕ)
    (hlive : mapGet st.sessions s = some tid)
    (hvalid : isValidSessionId (some s) = true) :
    (handleDelete st (some s) true).1 = DeleteOutcome.success ∧
    mapGet (handleDelete st (some s) true).2.sessions s = none ∧
    mapGet (handleDelete st (some s) true).2.sessionLastAccess s = none ∧
    (∀ isInit now,
      (handlePost (handleDelete st (some s) true).2 (some s) true isInit now).1
        = PostOutcome.invalidSession) ∧
    (∀ parseOk isInit now tid2,
      (handlePost (handleDelete st (some s) true).2 (some s) parseOk isInit now).1
        ≠ PostOutcome.reused tid2) ∧
    (handleGet (handleDelete st (some s) true).2 (some s)).1 = GetOutcome.notFound ∧
    (∀ closeOk,
      (handleDelete (handleDelete st (some s) true).2 (some s) closeOk).1
        = DeleteOutcome.notFound) := by
  have hne := isValidSessionId_ne_empty hvalid
  have hhas : mapHas st.sessions s = true := by simp [mapHas, hlive]
  have hst' : (handleDelete st (some s) true).2 =
      ⟨mapDelete st.sessions s, mapDelete st.sessionLastAccess s⟩ := by
    simp [handleDelete, hvalid, hhas]
  have hout : (handleDelete st (some s) true).1 = DeleteOutcome.success := by
    simp [handleDelete, hvalid, hhas]
  have hgone : mapGet (mapDelete st.sessions s) s = none := mapGet_mapDelete_self _ _
  have hgone2 : mapGet (mapDelete st.sessionLastAccess s) s = none :=
    mapGet_mapDelete_self _ _
  have hhas' : mapHas (mapDelete st.sessions s) s = false := by simp [mapHas, hgone]
  refine ⟨hout, ?_, ?_, ?_, ?_, ?_, ?_⟩
  · rw [hst']; exact hgone
  · rw [hst']; exact hgone2
  · intro isInit now
    rw [hst']
    simp [handlePost, truthy, hne, hvalid, hhas']
  · intro parseOk isInit now tid2
    rw [hst']
    cases parseOk <;> simp [handlePost, truthy, hne, hvalid, hhas']
  · rw [hst']
    simp [handleGet, hvalid, hhas']
  · intro closeOk
    rw [hst']
    simp [handleDelete, hvalid, hhas']

theorem delete_closes_and_removes_witness :
    (handleDelete ⟨[("00000000-0000-4000-8000-000000000000", 7)],
        [("00000000-0000-4000-8000-000000000000", 100)]⟩
      (some "00000000-0000-4000-8000-000000000000") true).1 = DeleteOutcome.success ∧
    mapGet (handleDelete ⟨[("00000000-0000-4000-8000-000000000000", 7)],
        [("00000000-0000-4000-8000-000000000000", 100)]⟩
      (some "00000000-0000-4000-8000-000000000000") true).2.sessions
      "00000000-0000-4000-8000-000000000000" = none := by
  have h := delete_closes_and_removes
    ⟨[("00000000-0000-4000-8000-000000000000", 7)],
     [("00000000-0000-4000-8000-000000000000", 100)]⟩
    "00000000-0000-4000-8000-000000000000" 7 (by decide) (by decide)
  exact ⟨h.1, h.2.1⟩

theorem sweepStep_none (now : ℤ) (acc : ServerState × List (String × ℕ))
    (e : String × ℤ) (id : String) (hs : mapGet acc.1.sessions id = none)
    (hl : mapGet acc.1.sessionLastAccess id = none) :
    mapGet (sweepStep now acc e).1.sessions id = none ∧
    mapGet (sweepStep now acc e).1.sessionLastAccess id = none := by
  unfold sweepStep
  by_cases h : now - e.2 > SESSION_TIMEOUT_MS
  · rw [if_pos h]
    exact ⟨mapGet_none_mapDelete _ _ hs, mapGet_none_mapDelete _ _ hl⟩
  · rw [if_neg h]
    exact ⟨hs, hl⟩

theorem foldl_sweep_none (now : ℤ) (id : String) :
    ∀ (l : List (String × ℤ)) (acc : ServerState × List (String × ℕ)),
      mapGet acc.1.sessions id = none → mapGet acc.1.sessionLastAccess id = none →
      mapGet (l.foldl (sweepStep now) acc).1.sessions id = none ∧
      mapGet (l.foldl (sweepStep now) acc).1.sessionLastAccess id = none := by
  intro l
  induction l with
  | nil => intro acc hs hl; exact ⟨hs, hl⟩
  | cons e rest ih =>
    intro acc hs hl
    have h := sweepStep_none now acc e id hs hl
    simpa only [List.foldl_cons] using ih (sweepStep now acc e) h.1 h.2

theorem foldl_sweep_removes (now : ℤ) (id : String) (t : ℤ) :
    ∀ (l : List (String × ℤ)) (acc : ServerState × List (String × ℕ)),
      (id, t) ∈ l → now - t > SESSION_TIMEOUT_MS →
      mapGet (l.foldl (sweepStep now) acc).1.sessions id = none ∧
      mapGet (l.foldl (sweepStep now) acc).1.sessionLastAccess id = none := by
  intro l
  induction l with
  | nil => intro acc hmem; simp at hmem
  | cons e rest ih =>
    intro acc hmem hexp
    simp only [List.foldl_cons]
    rcases List.mem_cons.mp hmem with heq | hmem'
    · have hs1 : mapGet (sweepStep now acc e).1.sessions id = none := by
        unfold sweepStep
        rw [← heq]
        rw [if_pos hexp]
        exact mapGet_mapDelete_self _ _
      have hl1 : mapGet (sweepStep now acc e).1.sessionLastAccess id = none := by
        unfold sweepStep
        rw [← heq]
        rw [if_pos hexp]
        exact mapGet_mapDelete_self _ _
      exact foldl_sweep_none now id rest _ hs1 hl1
    · exact ih (sweepStep now acc e) hmem' hexp

theorem foldl_sweep_keeps (now : ℤ) (id : String) :
    ∀ (l : List (String × ℤ)) (acc : ServerState × List (String × ℕ)),
      (∀ t', (id, t') ∈ l → ¬(now - t' > SESSION_TIMEOUT_MS)) →
      mapGet (l.foldl (sweepStep now) acc).1.sessions id
        = mapGet acc.1.sessions id ∧
      mapGet (l.foldl (sweepStep now) acc).1.sessionLastAccess id
        = mapGet acc.1.sessionLastAccess id := by
  intro l
  induction l with
  | nil => intro acc _; exact ⟨rfl, rfl⟩
  | cons e rest ih =>
    intro acc hno
    simp only [List.foldl_cons]
    have hrest : ∀ t', (id, t') ∈ rest → ¬(now - t' > SESSION_TIMEOUT_MS) :=
      fun t' ht' => hno t' (List.mem_cons_of_mem _ ht')
    have hstep : mapGet (sweepStep now acc e).1.sessions id
          = mapGet acc.1.sessions id ∧
        mapGet (sweepStep now acc e).1.sessionLastAccess id
          = mapGet acc.1.sessionLastAccess id := by
      unfold sweepStep
      by_cases hx : now - e.2 > SESSION_TIMEOUT_MS
      · rw [if_pos hx]
        have hne : e.1 ≠ id := by
          intro hc
          have hmem : (id, e.2) ∈ e :: rest := by
            rw [← hc]
            exact List.mem_cons_self e rest
          exact hno e.2 hmem hx
        exact ⟨mapGet_mapDelete_ne _ hne, mapGet_mapDelete_ne _ hne⟩
      · rw [if_neg hx]
        exact ⟨rfl, rfl⟩
    rcases ih (sweepStep now acc e) hrest with ⟨ih1, ih2⟩
    exact ⟨ih1.trans hstep.1, ih2.trans hstep.2⟩

theorem foldl_sweep_mono (now : ℤ) :
    ∀ (l : List (String × ℤ)) (acc : ServerState × List (String × ℕ))
      (x : String × ℕ), x ∈ acc.2 → x ∈ (l.foldl (sweepStep now) acc).2 := by
  intro l
  induction l with
  | nil => intro acc x hx; exact hx
  | cons e rest ih =>
    intro acc x hx
    have hx' : x ∈ (sweepStep now acc e).2 := by
      unfold sweepStep
      by_cases h : now - e.2 > SESSION_TIMEOUT_MS
      · rw [if_pos h]
        exact List.mem_append_left _ hx
      · rw [if_neg h]
        exact hx
    simpa only [List.foldl_cons] using ih (sweepStep now acc e) x hx'

theorem foldl_sweep_closes (now : ℤ) (id : String) (t : ℤ) (tid : ℕ) :
    ∀ (l : List (String × ℤ)) (acc : ServerState × List (String × ℕ)),
      (id, t) ∈ l → now - t > SESSION_TIMEOUT_MS →
      mapGet acc.1.sessions id = some tid →
      (∀ t', (id, t') ∈ l → t' = t) →
      (id, tid) ∈ (l.foldl (sweepStep now) acc).2 := by
  intro l
  induction l with
  | nil => intro acc hmem; simp at hmem
  | cons e rest ih =>
    intro acc hmem hexp hget huniq
    simp only [List.foldl_cons]
    by_cases hkey : e.1 = id
    · have het : e.2 = t := by
        apply huniq e.2
        rw [← hkey]
        exact List.mem_cons_self e rest
      have hx : (id, tid) ∈ (sweepStep now acc e).2 := by
        unfold sweepStep
        have hcond : now - e.2 > SESSION_TIMEOUT_MS := by
          rw [het]
          exact hexp
        rw [if_pos hcond, hkey, hget]
        exact List.mem_append_right _ (List.mem_cons_self _ _)
      exact foldl_sweep_mono now rest (sweepStep now acc e) (id, tid) hx
    · have hget' : mapGet (sweepStep now acc e).1.sessions id = some tid := by
        unfold sweepStep
        by_cases h : now - e.2 > SESSION_TIMEOUT_MS
        · rw [if_pos h]
          rw [show mapGet (mapDelete acc.1.sessions e.1) id
              = mapGet acc.1.sessions id from mapGet_mapDelete_ne _ hkey]
          exact hget
        · rw [if_neg h]
          exact hget
      have hmem' : (id, t) ∈ rest := by
        rcases List.mem_cons.mp hmem with heq | h
        · exact absurd (by rw [← heq] : e.1 = id).symm (Ne.symm hkey)
        · exact h
      exact ih (sweepStep now acc e) hmem' hexp hget'
        (fun t' ht' => huniq t' (List.mem_cons_of_mem _ ht'))

theorem foldl_sweep_closed_key (now : ℤ) :
    ∀ (l : List (String × ℤ)) (acc : ServerState × List (String × ℕ))
      (x : String × ℕ), x ∈ (l.foldl (sweepStep now) acc).2 →
      x ∈ acc.2 ∨ ∃ t', (x.1, t') ∈ l ∧ now - t' > SESSION_TIMEOUT_MS := by
  intro l
  induction l with
  | nil => intro acc x hx; exact Or.inl hx
  | cons e rest ih =>
    intro acc x hx
    simp only [List.foldl_cons] at hx
    rcases ih (sweepStep now acc e) x hx with hin | ⟨t', ht', hstale⟩
    · unfold sweepStep at hin
      by_cases h : now - e.2 > SESSION_TIMEOUT_MS
      · rw [if_pos h] at hin
        rcases List.mem_append.mp hin with h1 | h2
        · exact Or.inl h1
        · right
          refine ⟨e.2, ?_, h⟩
          rcases hm : mapGet acc.1.sessions e.1 with _ | tid0
          · rw [hm] at h2
            simp at h2
          · rw [hm] at h2
            simp only [List.mem_singleton] at h2
            rw [h2]
            exact List.mem_cons_self e rest
      · rw [if_neg h] at hin
        exact Or.inl hin
    · exact Or.inr ⟨t', List.mem_cons_of_mem _ ht', hstale⟩

/-- C6: when the periodic sweep fires at time `now`, every live session
whose last-access timestamp is staler than SESSION_TIMEOUT_MS (30 minutes,
swept every SESSION_CLEANUP_INTERVAL_MS = 5 minutes) has its registered
transport close() invoked (the rejection swallowed) and is removed from
both maps, and subsequent POST, GET and DELETE calls with its id are
rejected; every session accessed within the timeout is left untouched: it
keeps both its transport entry and its last-access value and no close is
invoked on its transport. -/
theorem sweep_expires_stale (st : ServerState) (now : ℤ) (id : String)
    (t : ℤ) (tid : ℕ)
    (hmem : mapGet st.sessionLastAccess id = some t)
    (hlive : mapGet st.sessions id = some tid)
    (hnd : (st.sessionLastAccess.map Prod.fst).Nodup)
    (hvalid : isValidSessionId (some id) = true) :
    (now - t > SESSION_TIMEOUT_MS →
      (id, tid) ∈ (sweepSessions st now).2 ∧
      mapGet (sweepSessions st now).1.sessions id = none ∧
      mapGet (sweepSessions st now).1.sessionLastAccess id = none ∧
      (∀ isInit now2,
        (handlePost (sweepSessions st now).1 (some id) true isInit now2).1
          = PostOutcome.invalidSession) ∧
      (handleGet (sweepSessions st now).1 (some id)).1 = GetOutcome.notFound ∧
      (∀ closeOk, (handleDelete (sweepSessions st now).1 (some id) closeOk).1
          = DeleteOutcome.notFound)) ∧
    (now - t ≤ SESSION_TIMEOUT_MS →
      mapGet (sweepSessions st now).1.sessions id = some tid ∧
      mapGet (sweepSessions st now).1.sessionLastAccess id = some t ∧
      (id, tid) ∉ (sweepSessions st now).2) ∧
    SESSION_TIMEOUT_MS = 30 * 60 * 1000 ∧
    SESSION_CLEANUP_INTERVAL_MS = 5 * 60 * 1000 := by
  have hne := isValidSessionId_ne_empty hvalid
  have huniq : ∀ t', (id, t') ∈ st.sessionLastAccess → t' = t :=
    fun t' ht' => mapGet_mem_unique hnd hmem t' ht'
  refine ⟨?_, ?_, rfl, rfl⟩
  · intro hexp
    have hclose := foldl_sweep_closes now id t tid st.sessionLastAccess (st, [])
      (mapGet_eq_some_mem hmem) hexp hlive huniq
    have hrm := foldl_sweep_removes now id t st.sessionLastAccess (st, [])
      (mapGet_eq_some_mem hmem) hexp
    have h1 : mapGet (sweepSessions st now).1.sessions id = none := hrm.1
    have h2 : mapGet (sweepSessions st now).1.sessionLastAccess id = none := hrm.2
    have hhas : mapHas (sweepSessions st now).1.sessions id = false := by
      simp [mapHas, h1]
    refine ⟨hclose, h1, h2, ?_, ?_, ?_⟩
    · intro isInit now2
      simp [handlePost, truthy, hne, hvalid, hhas]
    · simp [handleGet, hvalid, hhas]
    · intro closeOk
      simp [handleDelete, hvalid, hhas]
  · intro hfresh
    have hno : ∀ t', (id, t') ∈ st.sessionLastAccess →
        ¬(now - t' > SESSION_TIMEOUT_MS) := by
      intro t' ht'
      rw [huniq t' ht']
      omega
    have hk := foldl_sweep_keeps now id st.sessionLastAccess (st, []) hno
    refine ⟨?_, ?_, ?_⟩
    · rw [show mapGet (sweepSessions st now).1.sessions id
          = mapGet st.sessions id from hk.1]
      exact hlive
    · rw [show mapGet (sweepSessions st now).1.sessionLastAccess id
          = mapGet st.sessionLastAccess id from hk.2]
      exact hmem
    · intro hc
      rcases foldl_sweep_closed_key now st.sessionLastAccess (st, []) (id, tid) hc
        with h0 | ⟨t', ht', hstale⟩
      · simp at h0
      · rw [huniq t' ht'] at hstale
        omega

theorem sweep_expires_stale_witness :
    ("00000000-0000-4000-8000-000000000000", 3) ∈
      (sweepSessions ⟨[("00000000-0000-4000-8000-000000000000", 3)],
          [("00000000-0000-4000-8000-000000000000", 0)]⟩ 1800001).2 ∧
    mapGet (sweepSessions ⟨[("00000000-0000-4000-8000-000000000000", 3)],
        [("00000000-0000-4000-8000-000000000000", 0)]⟩ 1800001).1.sessions
      "00000000-0000-4000-8000-000000000000" = none := by
  have h := sweep_expires_stale
    ⟨[("00000000-0000-4000-8000-000000000000", 3)],
     [("00000000-0000-4000-8000-000000000000", 0)]⟩ 1800001
    "00000000-0000-4000-8000-000000000000" 0 3 (by decide) (by decide)
    (by simp) (by decide)
  exact ⟨(h.1 (by decide)).1, (h.1 (by decide)).2.1⟩

/-! ## Shutdown

Embedding of handleShutdown (src/unnamed/part_011 lines 574-599). The
function is async over a single-threaded event loop; its observable
behaviour is modelled as a sequential trace of events. The for loop first
invokes transport.close() for every registry entry, collecting one promise
per session whose catch clause swallows a rejection; `await
Promise.allSettled(closePromises)` is a barrier, so every close operation
settles (resolution or rejection) before the continuation resumes; the
continuation then clears both maps, cancels the cleanup interval and calls
process.exit(0). The close outcome of each session id is the external
parameter `closeOutcome`. -/

/-- Observable events of the shutdown sequence. -/
inductive ShutdownEvent where
  /-- transport.close() was invoked for this session id. -/
  | closeInvoked (sid : String)
  /-- The close operation of this session settled; ok is false when it
  rejected (the rejection is swallowed by the catch clause). -/
  | closeSettled (sid : String) (ok : Bool)
  /-- The Promise.allSettled barrier resolved. -/
  | allSettledAwaited
  /-- sessions.clear() ran. -/
  | sessionsCleared
  /-- sessionLastAccess.clear() ran. -/
  | lastAccessCleared
  /-- clearInterval(sessionCleanupInterval) ran. -/
  | intervalCleared
  /-- process.exit(code) ran. -/
  | exited (code : ℕ)
deriving DecidableEq

/-- Trace and final state of handleShutdown. -/
def handleShutdown (st : ServerState) (closeOutcome : String → Bool) :
    List ShutdownEvent × ServerState :=
  ((st.sessions.map fun p => ShutdownEvent.closeInvoked p.1) ++
   (st.sessions.map fun p => ShutdownEvent.closeSettled p.1 (closeOutcome p.1)) ++
   [ShutdownEvent.allSettledAwaited, ShutdownEvent.sessionsCleared,
    ShutdownEvent.lastAccessCleared, ShutdownEvent.intervalCleared,
    ShutdownEvent.exited 0],
   { sessions := [], sessionLastAccess := [] })

/-- C8: on shutdown, every session in the registry has its transport close
invoked, the exit happens strictly after every close has settled whatever
each outcome was (rejection included), and by then both session maps have
been cleared and the sweep interval cancelled. -/
theorem shutdown_closes_all (st : ServerState) (closeOutcome : String → Bool)
    (sid : String) (tid : ℕ) (hmem : (sid, tid) ∈ st.sessions) :
    (∃ pre, (handleShutdown st closeOutcome).1 = pre ++ [ShutdownEvent.exited 0] ∧
      ShutdownEvent.closeInvoked sid ∈ pre ∧
      ShutdownEvent.closeSettled sid (closeOutcome sid) ∈ pre ∧
      ShutdownEvent.allSettledAwaited ∈ pre ∧
      ShutdownEvent.sessionsCleared ∈ pre ∧
      ShutdownEvent.lastAccessCleared ∈ pre ∧
      ShutdownEvent.intervalCleared ∈ pre) ∧
    (handleShutdown st closeOutcome).2.sessions = [] ∧
    (handleShutdown st closeOutcome).2.sessionLastAccess = [] := by
  refine ⟨?_, rfl, rfl⟩
  refine ⟨(st.sessions.map fun p => ShutdownEvent.closeInvoked p.1) ++
    (st.sessions.map fun p => ShutdownEvent.closeSettled p.1 (closeOutcome p.1)) ++
    [ShutdownEvent.allSettledAwaited, ShutdownEvent.sessionsCleared,
     ShutdownEvent.lastAccessCleared, ShutdownEvent.intervalCleared], ?_, ?_, ?_, ?_, ?_, ?_, ?_⟩
  · simp [handleShutdown]
  · refine List.mem_append.mpr (Or.inl (List.mem_append.mpr (Or.inl ?_)))
    exact List.mem_map.mpr ⟨(sid, tid), hmem, rfl⟩
  · refine List.mem_append.mpr (Or.inl (List.mem_append.mpr (Or.inr ?_)))
    exact List.mem_map.mpr ⟨(sid, tid), hmem, rfl⟩
  · simp
  · simp
  · simp
  · simp

theorem shutdown_closes_all_witness :
    (∃ pre, (handleShutdown ⟨[("a-session", 1), ("b-session", 2)], []⟩
        (fun s => s == "a-session")).1 = pre ++ [ShutdownEvent.exited 0] ∧
      ShutdownEvent.closeInvoked "b-session" ∈ pre ∧
      ShutdownEvent.closeSettled "b-session"
        ((fun s => s == "a-session") "b-session") ∈ pre ∧
      ShutdownEvent.allSettledAwaited ∈ pre ∧
      ShutdownEvent.sessionsCleared ∈ pre ∧
      ShutdownEvent.lastAccessCleared ∈ pre ∧
      ShutdownEvent.intervalCleared ∈ pre) ∧
    (handleShutdown ⟨[("a-session", 1), ("b-session", 2)], []⟩
      (fun s => s == "a-session")).2.sessions = [] ∧
    (handleShutdown ⟨[("a-session", 1), ("b-session", 2)], []⟩
      (fun s => s == "a-session")).2.sessionLastAccess = [] :=
  shutdown_closes_all ⟨[("a-session", 1), ("b-session", 2)], []⟩
    (fun s => s == "a-session") "b-session" 2 (by decide)

/-! ## The request/response shim

Embedding of createMockResponse (src/unnamed/part_011 lines 129-233). The
shim captures status, headers and body chunks into local state; writeHead,
write, end, setHeader and removeHeader are the write-side primitives and
getResponse folds the captured state into a single response value. Chunks
are modelled as strings (the source decodes Uint8Array chunks to strings
before storing them). -/

/-- A header value in the shim: string or array of strings. -/
inductive HVal where
  | str (s : String)
  | arr (l : List String)
deriving DecidableEq

/-- Captured state of one mock response. -/
structure MockRes where
  responseHeaders : List (String × HVal)
  responseChunks : List String
  responseStatus : ℕ
  statusCode : ℕ
  statusMessage : String
  headersSent : Bool
  finished : Bool
deriving DecidableEq

/-- Initial shim state: status 200, message OK, nothing sent. -/
def initMockRes : MockRes :=
  { responseHeaders := [], responseChunks := [], responseStatus := 200,
    statusCode := 200, statusMessage := "OK", headersSent := false,
    finished := false }

/-- Object.assign of a plain header record onto the captured headers. -/
def assignHeaders (hdrs : List (String × HVal)) (new : List (String × String)) :
    List (String × HVal) :=
  new.foldl (fun acc p => mapSet acc p.1 (HVal.str p.2)) hdrs

/-- mock.writeHead(status, statusMessage?, headers?): records the status in
responseStatus and statusCode; a second argument that is an object is the
header record, a truthy string second argument replaces statusMessage and
the third argument is then the header record; headersSent becomes true. -/
def mockWriteHead (m : MockRes) (status : ℕ)
    (arg2 : Option (String ⊕ List (String × String)))
    (arg3 : Option (List (String × String))) : MockRes :=
  let m1 := { m with responseStatus := status, statusCode := status }
  let m2 :=
    match arg2 with
    | some (Sum.inr hs) =>
      { m1 with responseHeaders := assignHeaders m1.responseHeaders hs }
    | some (Sum.inl msg) =>
      let m1b := if msg ≠ "" then { m1 with statusMessage := msg } else m1
      match arg3 with
      | some hs => { m1b with responseHeaders := assignHeaders m1b.responseHeaders hs }
      | none => m1b
    | none =>
      match arg3 with
      | some hs => { m1 with responseHeaders := assignHeaders m1.responseHeaders hs }
      | none => m1
  { m2 with headersSent := true }

/-- mock.write(chunk): appends the chunk to responseChunks, with no guard
on the finished flag. -/
def mockWrite (m : MockRes) (chunk : String) : MockRes :=
  { m with responseChunks := m.responseChunks ++ [chunk] }

/-- mock.end(data?): appends the optional trailing chunk, sets the
finished flag and emits the finish event; callback arguments only get
invoked and leave the captured state alone. -/
def mockEnd (m : MockRes) (data : Option String) : MockRes :=
  { m with responseChunks := m.responseChunks ++ data.toList, finished := true }

/-- mock.setHeader(name, value): plain record assignment, with no guard on
the finished flag. -/
def mockSetHeader (m : MockRes) (name : String) (value : HVal) : MockRes :=
  { m with responseHeaders := mapSet m.responseHeaders name value }

/-- mock.removeHeader(name). -/
def mockRemoveHeader (m : MockRes) (name : String) : MockRes :=
  { m with responseHeaders := mapDelete m.responseHeaders name }

/-- The value getResponse() builds. -/
structure CapturedResponse where
  status : ℕ
  headers : List (String × String)
  body : String
deriving DecidableEq

/-- An array-valued header is joined with a comma and space. -/
def joinHeaderVal : HVal → String
  | .str s => s
  | .arr l => String.intercalate ", " l

/-- getResponse(): the captured status, the headers with array values
joined, and the concatenation of all recorded chunks. It reads the
captured state without modifying it, so repeated calls agree as long as no
further write-side call intervenes. -/
def mockGetResponse (m : MockRes) : CapturedResponse :=
  { status := m.responseStatus,
    headers := m.responseHeaders.map (fun p => (p.1, joinHeaderVal p.2)),
    body := String.join m.responseChunks }

/-! ## Claims about the shim -/

/-- C7 counterexample: the shim does not freeze its captured state at
finalize time: after end() has recorded the body, one further write()
changes what getResponse() reports, because write, setHeader and writeHead
carry no guard on the finished flag. -/
theorem shim_write_after_end_counterexample :
    (mockEnd initMockRes (some "a")).finished = true ∧
    mockGetResponse (mockWrite (mockEnd initMockRes (some "a")) "b")
      ≠ mockGetResponse (mockEnd initMockRes (some "a")) := by
  exact ⟨rfl, by decide⟩

/-- C7 (amended): after end() the shim marks the response finished and
getResponse() reports the captured status, headers and concatenated body
(including a finalize-with-data chunk), identically on every call as long
as no further write-side primitive runs; the shim however does not guard
against post-finalize mutation: a later write() or setHeader() is
reflected in subsequent getResponse() results. -/
theorem shim_finalize_behavior (m : MockRes) (d : Option String) :
    (mockEnd m d).finished = true ∧
    mockGetResponse (mockEnd m d) =
      { status := m.responseStatus,
        headers := m.responseHeaders.map (fun p => (p.1, joinHeaderVal p.2)),
        body := String.join (m.responseChunks ++ d.toList) } ∧
    (∀ c, mockGetResponse (mockWrite (mockEnd m d) c) =
      { status := m.responseStatus,
        headers := m.responseHeaders.map (fun p => (p.1, joinHeaderVal p.2)),
        body := String.join (m.responseChunks ++ d.toList ++ [c]) }) ∧
    (∀ name value,
      (mockSetHeader (mockEnd m d) name value).responseHeaders
        = mapSet m.responseHeaders name value) :=
  ⟨rfl, rfl, fun _ => rfl, fun _ _ => rfl⟩
